import Mathlib

/-
Verification of the crash-dashboard aggregation logic (src/crash_dashboard.py)
against its natural-language specification.

The embedding models the main pre-aggregated crash table as a list of rows,
the sidebar widget state as a FilterSet, and each aggregation block of the
script as a pure function on lists.  Counts are natural numbers and all
rates are exact rationals; note that in ℚ a division by zero yields 0,
where pandas would produce NaN or inf (pointed out at each place where it
matters).
-/

set_option maxRecDepth 8000

/-- One row of the main parquet table (dashboard_data_main.parquet).
Columns: YEAR, HOUR, DAY_OF_WEEK, SEVERITY_GROUP, URBAN_TYPE,
ROAD_SURF_COND_DESCR, AMBNT_LIGHT_DESCR, AGE_DRVR_YNGST, CITY_TOWN_NAME,
crash_count. -/
structure Row where
  year : Int
  hour : Int
  dayOfWeek : Int
  severity : String
  urbanType : String
  roadSurf : String
  ambientLight : String
  ageYoungest : String
  cityTown : String
  crashCount : Nat
  deriving DecidableEq

/-- Convenience constructor used for the concrete test datasets. -/
def mkRow (year hour dayOfWeek : Int)
    (severity urbanType roadSurf ambientLight ageYoungest cityTown : String)
    (crashCount : Nat) : Row :=
  ⟨year, hour, dayOfWeek, severity, urbanType, roadSurf, ambientLight,
    ageYoungest, cityTown, crashCount⟩

/-- The sidebar widget state (lines 33-64 of the script): a year range,
a multiselect of severity groups and four single-value selectboxes whose
"no restriction" value is the string All. -/
structure FilterSet where
  yearLo : Int
  yearHi : Int
  severityFilter : List String
  urban : String
  road : String
  light : String
  age : String
  deriving DecidableEq

/-- Sum of the crash_count column over a list of rows (pandas Series.sum). -/
def sumCounts (rows : List Row) : Nat := (rows.map Row.crashCount).sum

/-- Lines 67-85: filtered_data.  The year-range mask is always applied;
the severity isin-mask only when the multiselect neither contains All nor
is empty; each selectbox mask only when its value differs from All. -/
def filtered_data (main : List Row) (fs : FilterSet) : List Row :=
  let d1 := main.filter (fun r => decide (fs.yearLo ≤ r.year) && decide (r.year ≤ fs.yearHi))
  let d2 := if !(fs.severityFilter.contains ("All")) && !(fs.severityFilter.isEmpty)
    then d1.filter (fun r => fs.severityFilter.contains r.severity) else d1
  let d3 := if fs.urban != ("All") then d2.filter (fun r => r.urbanType == fs.urban) else d2
  let d4 := if fs.road != ("All") then d3.filter (fun r => r.roadSurf == fs.road) else d3
  let d5 := if fs.light != ("All") then d4.filter (fun r => r.ambientLight == fs.light) else d4
  if fs.age != ("All") then d5.filter (fun r => r.ageYoungest == fs.age) else d5

/-- Lines 91-102: total_all_data, the data feeding the four summary metrics.
It applies the year, urban, road and light masks but neither the severity
multiselect nor the age selectbox. -/
def total_all_data (main : List Row) (fs : FilterSet) : List Row :=
  let d1 := main.filter (fun r => decide (fs.yearLo ≤ r.year) && decide (r.year ≤ fs.yearHi))
  let d2 := if fs.urban != ("All") then d1.filter (fun r => r.urbanType == fs.urban) else d1
  let d3 := if fs.road != ("All") then d2.filter (fun r => r.roadSurf == fs.road) else d2
  if fs.light != ("All") then d3.filter (fun r => r.ambientLight == fs.light) else d3

/-- Lines 227-230: baseline_data, the main table filtered ONLY by the year
range, used for the two risk-factor tables. -/
def baseline_data (main : List Row) (fs : FilterSet) : List Row :=
  main.filter (fun r => decide (fs.yearLo ≤ r.year) && decide (r.year ≤ fs.yearHi))

/-- Lines 104-107: the four summary metrics
(total_crashes, fatal_crashes, serious_crashes, fatal_serious_pct). -/
def summary_counts (rows : List Row) : Nat × Nat × Nat × ℚ :=
  let total := sumCounts rows
  let fatal := sumCounts (rows.filter (fun r => r.severity == ("Fatal")))
  let serious := sumCounts (rows.filter (fun r => r.severity == ("Serious")))
  let pct : ℚ := if 0 < total then ((fatal : ℚ) + (serious : ℚ)) / (total : ℚ) * 100 else 0
  (total, fatal, serious, pct)

/-- summaryMetrics: the metric tuple as the dashboard computes it from the
widget state (summary_counts applied to total_all_data). -/
def summaryMetrics (main : List Row) (fs : FilterSet) : Nat × Nat × Nat × ℚ :=
  summary_counts (total_all_data main fs)

/-- Insert an element into a sorted list, Bool comparator. -/
def insertBy {α : Type} (le : α → α → Bool) (x : α) : List α → List α
  | [] => [x]
  | y :: ys => if le x y then x :: y :: ys else y :: insertBy le x ys

/-- Insertion sort with a Bool comparator. -/
def sortBy {α : Type} (le : α → α → Bool) : List α → List α
  | [] => []
  | x :: xs => insertBy le x (sortBy le xs)

/-- Character order on the underlying code points. -/
def charLtB (a b : Char) : Bool := decide (a.val < b.val)

/-- Lexicographic order on strings, written out on the character lists so
that it evaluates inside the kernel. -/
def strLtList : List Char → List Char → Bool
  | [], [] => false
  | [], _ :: _ => true
  | _ :: _, [] => false
  | a :: as, b :: bs =>
    if charLtB a b then true
    else if charLtB b a then false
    else strLtList as bs

/-- String comparison used to mirror the ascending key order of a pandas
groupby. -/
def strLeB (a b : String) : Bool := !(strLtList b.data a.data)

/-- The distinct values of a string column, in ascending order
(pandas groupby emits its keys sorted). -/
def distinctSorted (vals : List String) : List String :=
  sortBy strLeB vals.dedup

/-- A row of the ranked rate tables (geo_final, road_final, light_final
after reset_index): the grouping value and the three derived columns
fatal_serious_crashes, total_crashes, fatal_serious_rate. -/
structure RateRow where
  category : String
  fatalSeriousCrashes : Nat
  totalCrashes : Nat
  rate : ℚ
  deriving DecidableEq

/-- Whether some row carries the given severity group; this is what
membership of that severity in the columns of the unstacked frame means. -/
def hasSev (rows : List Row) (s : String) : Bool :=
  rows.any (fun r => r.severity == s)

/-- One cell of the unstacked groupby frame: the summed crash_count of the
rows with the given category value and severity (fill_value=0 makes the
cell 0 when no such row exists). -/
def cellSum (rows : List Row) (cat : Row → String) (c s : String) : Nat :=
  sumCounts (rows.filter (fun r => cat r == c && r.severity == s))

/-- Lines 192-199 (and the identical 237-244, 269-276): the
fatal_serious_crashes column, with the branches on which severity columns
the unstacked frame has. -/
def fatalSeriousOf (rows : List Row) (cat : Row → String) (c : String) : Nat :=
  if hasSev rows ("Fatal") && hasSev rows ("Serious") then
    cellSum rows cat c ("Fatal") + cellSum rows cat c ("Serious")
  else if hasSev rows ("Fatal") then cellSum rows cat c ("Fatal")
  else if hasSev rows ("Serious") then cellSum rows cat c ("Serious")
  else 0

/-- Line 201 (246, 278): total_crashes = summary.sum(axis=1).  At this
point the frame holds one column per severity present PLUS the
fatal_serious_crashes column added just before, so the row sum counts the
fatal and serious crashes twice. -/
def totalOf (rows : List Row) (cat : Row → String) (c : String) : Nat :=
  ((distinctSorted (rows.map Row.severity)).map (fun s => cellSum rows cat c s)).sum
    + fatalSeriousOf rows cat c

/-- Line 202 (247, 279): fatal_serious_rate. -/
def rateOf (rows : List Row) (cat : Row → String) (c : String) : ℚ :=
  (fatalSeriousOf rows cat c : ℚ) / (totalOf rows cat c : ℚ) * 100

/-- Comparator for nlargest: descending fatal_serious_rate. -/
def rateGeB (a b : RateRow) : Bool := decide (b.rate ≤ a.rate)

/-- Lines 186-206 (and 234-250, 266-282), the shared shape of the three
ranked rate tables: group by a category column and severity, sum
crash_count, unstack with fill 0, add fatal_serious_crashes, add
total_crashes as the row sum of the current frame, derive the rate, keep
the categories whose total_crashes column reaches minSample, and take the
topN rows by descending rate (nlargest). -/
def rateSummary (rows : List Row) (cat : Row → String) (minSample topN : Nat) :
    List RateRow :=
  let summary := (distinctSorted (rows.map cat)).map (fun c =>
    RateRow.mk c (fatalSeriousOf rows cat c) (totalOf rows cat c) (rateOf rows cat c))
  let kept := summary.filter (fun row => decide (minSample ≤ row.totalCrashes))
  (sortBy rateGeB kept).take topN

/-- Line 205: geo_final, the city table (min 100 crashes, top 20),
computed from total_all_data. -/
def geo_final (main : List Row) (fs : FilterSet) : List RateRow :=
  rateSummary (total_all_data main fs) Row.cityTown 100 20

/-- Line 249: road_final (min 100 crashes, top 10), computed from
baseline_data. -/
def road_final (main : List Row) (fs : FilterSet) : List RateRow :=
  rateSummary (baseline_data main fs) Row.roadSurf 100 10

/-- Line 281: light_final (min 100 crashes, top 10), computed from
baseline_data. -/
def light_final (main : List Row) (fs : FilterSet) : List RateRow :=
  rateSummary (baseline_data main fs) Row.ambientLight 100 10

/-- A table together with the names of the columns it carries; the column
list is what a pandas column selection checks. -/
structure DataFrame where
  cols : List String
  rows : List Row

/-- Lookup of a string column by its name in the source table. -/
def getCol (r : Row) : String → String
  | "CITY_TOWN_NAME" => r.cityTown
  | "SEVERITY_GROUP" => r.severity
  | "URBAN_TYPE" => r.urbanType
  | "ROAD_SURF_COND_DESCR" => r.roadSurf
  | "AMBNT_LIGHT_DESCR" => r.ambientLight
  | "AGE_DRVR_YNGST" => r.ageYoungest
  | _ => ""

/-- The rate-by-category operation at the frame level, beginning with the
column selection of line 186: df[[catCol, SEVERITY_GROUP, crash_count]].
pandas raises a KeyError when one of the requested columns is absent,
modelled as Except.error. -/
def rate_by_category (f : DataFrame) (catCol : String) (minSample topN : Nat) :
    Except String (List RateRow) :=
  if ([catCol, ("SEVERITY_GROUP"), ("crash_count")].all (fun c => f.cols.contains c)) then
    Except.ok (rateSummary f.rows (fun r => getCol r catCol) minSample topN)
  else Except.error ("KeyError")

/-- Summed crash_count for one (hour, day-of-week) combination. -/
def hdSum (rows : List Row) (h d : Int) : Nat :=
  sumCounts (rows.filter (fun r => r.hour == h && r.dayOfWeek == d))

/-- Line 302: the day_order dictionary. -/
def dayName (d : Int) : String :=
  if d == 0 then ("Monday")
  else if d == 1 then ("Tuesday")
  else if d == 2 then ("Wednesday")
  else if d == 3 then ("Thursday")
  else if d == 4 then ("Friday")
  else if d == 5 then ("Saturday")
  else if d == 6 then ("Sunday")
  else ("")

/-- Distinct integer values in ascending order (the index and columns of a
pandas pivot are the sorted distinct values that occur). -/
def sortedDedupInt (l : List Int) : List Int :=
  sortBy (fun a b => decide (a ≤ b)) l.dedup

/-- The heatmap pivot (lines 305-309): a matrix with one row per hour
value occurring in the input and one column per day-of-week value
occurring in the input, cells summed and missing combinations filled
with 0, columns renamed through day_order. -/
structure Pivot where
  hours : List Int
  dayCols : List Int
  colNames : List String
  matrix : List (List Nat)

/-- Lines 305-309: heatmap_pivot. -/
def heatmap_pivot (rows : List Row) : Pivot :=
  let hs := sortedDedupInt (rows.map Row.hour)
  let ds := sortedDedupInt (rows.map Row.dayOfWeek)
  { hours := hs
  , dayCols := ds
  , colNames := ds.map dayName
  , matrix := hs.map (fun h => ds.map (fun d => hdSum rows h d)) }

/-- Line 329: fatal_serious_data, the filter to the two severe groups that
precedes every normalized comparison chart. -/
def fatal_serious_data (rows : List Row) : List Row :=
  rows.filter (fun r => r.severity == ("Fatal") || r.severity == ("Serious"))

/-- The distinct (dimension value, severity) pairs of a table, the keys of
the two-column groupby.  pandas emits group keys sorted; the key order is
observable only through tie-breaking in later sorts, which the spec leaves
open, so the dedup order is used here. -/
def groupKeys {α : Type} [DecidableEq α] (dim : Row → α) (rows : List Row) :
    List (α × String) :=
  (rows.map (fun r => (dim r, r.severity))).dedup

/-- Summed crash_count of one groupby key. -/
def keySum {α : Type} [DecidableEq α] (dim : Row → α) (rows : List Row)
    (k : α × String) : Nat :=
  sumCounts (rows.filter (fun r => decide (dim r = k.1) && r.severity == k.2))

/-- Lines 332 / 354 / 385: the grouped (dimension, severity, count) table
built from fatal_serious_data. -/
def groupedTable {α : Type} [DecidableEq α] (dim : Row → α) (rows : List Row) :
    List (α × String × Nat) :=
  (groupKeys dim (fatal_serious_data rows)).map
    (fun k => (k.1, k.2, keySum dim (fatal_serious_data rows) k))

/-- Lines 335-338: the per-severity total that each group count is divided
by: the sum of the grouped counts whose severity matches. -/
def sevGroupTotal {α : Type} (grouped : List (α × String × Nat)) (s : String) : Nat :=
  ((grouped.filter (fun g => g.2.1 == s)).map (fun g => g.2.2)).sum

/-- Lines 329-338 (and the identical 354-360, 385-391): group the severe
subset by (dimension, severity), then give every group row the percentage
of its severity total.  In pandas a zero severity total makes the division
produce NaN or inf; in ℚ a division by zero yields 0. -/
def normalizeWithinGroup {α : Type} [DecidableEq α] (dim : Row → α)
    (rows : List Row) : List (α × String × Nat × ℚ) :=
  let grouped := groupedTable dim rows
  grouped.map (fun g =>
    (g.1, g.2.1, g.2.2, ((g.2.2 : ℚ) / (sevGroupTotal grouped g.2.1 : ℚ)) * 100))

/-- Sum of the percentage column restricted to one severity. -/
def percSum {α : Type} (out : List (α × String × Nat × ℚ)) (s : String) : ℚ :=
  ((out.filter (fun g => g.2.1 == s)).map (fun g => g.2.2.2)).sum

/-- One row of the all-crashes time series csv. -/
structure TsRow where
  year : Int
  crashCount : Nat
  deriving DecidableEq

/-- One row of the fatal-serious time series csv. -/
structure SevTsRow where
  year : Int
  severity : String
  crashCount : Nat
  deriving DecidableEq

/-- The three datasets returned by load_data (lines 12-16). -/
structure Inputs where
  allCrashesTs : List TsRow
  fatalSeriousTs : List SevTsRow
  mainData : List Row

/-- Everything the script hands to the charting layer for one run. -/
structure DashboardTables where
  summary : Nat × Nat × Nat × ℚ
  tsAll : List TsRow
  tsFatalSerious : List SevTsRow
  geoFinal : List RateRow
  roadFinal : List RateRow
  lightFinal : List RateRow
  heatmap : Pivot
  hourSeverity : List (Int × String × Nat × ℚ)
  lightSeverity : List (String × String × Nat × ℚ)
  ageSeverity : List (String × String × Nat × ℚ)

/-- The full pipeline of one successful run, in script order. -/
def dashboardTables (inp : Inputs) (fs : FilterSet) : DashboardTables :=
  { summary := summaryMetrics inp.mainData fs
  , tsAll := inp.allCrashesTs.filter
      (fun r => decide (fs.yearLo ≤ r.year) && decide (r.year ≤ fs.yearHi))
  , tsFatalSerious := inp.fatalSeriousTs.filter
      (fun r => decide (fs.yearLo ≤ r.year) && decide (r.year ≤ fs.yearHi))
  , geoFinal := geo_final inp.mainData fs
  , roadFinal := road_final inp.mainData fs
  , lightFinal := light_final inp.mainData fs
  , heatmap := heatmap_pivot (filtered_data inp.mainData fs)
  , hourSeverity := normalizeWithinGroup Row.hour (filtered_data inp.mainData fs)
  , lightSeverity := normalizeWithinGroup Row.ambientLight (filtered_data inp.mainData fs)
  , ageSeverity := normalizeWithinGroup Row.ageYoungest (filtered_data inp.mainData fs) }

/-- Outcome of a run: either the error screen of lines 20-22 (st.error
followed by st.stop, before any chart is built) or the rendered charts. -/
inductive RunOutcome where
  | halted (msg : String)
  | rendered (tables : DashboardTables)

/-- Lines 18-22: the try/except around load_data.  A load failure surfaces
the message and stops; a successful load runs the whole pipeline. -/
def runDashboard (load : Except String Inputs) (fs : FilterSet) : RunOutcome :=
  match load with
  | Except.error e => RunOutcome.halted (("Error loading data: ") ++ e)
  | Except.ok inp => RunOutcome.rendered (dashboardTables inp fs)

/-- The scenario of claim C1: road surface Wet with 50 crashes, Dry with
500 crashes of which 50 are severe. -/
def scenarioWetDry : List Row :=
  [ mkRow 2020 1 1 ("Fatal") ("Urban") ("Dry") ("Daylight") ("25-34") ("Boston") 20
  , mkRow 2020 2 1 ("Serious") ("Urban") ("Dry") ("Daylight") ("25-34") ("Boston") 30
  , mkRow 2020 3 1 ("Other") ("Urban") ("Dry") ("Daylight") ("25-34") ("Boston") 450
  , mkRow 2020 4 1 ("Other") ("Urban") ("Wet") ("Daylight") ("25-34") ("Boston") 50 ]

/-- Failing input for claim C5: the only city has 60 crashes in total,
50 of them fatal, so its true total is below the min-sample of 100. -/
def smallCityRows : List Row :=
  [ mkRow 2020 1 1 ("Fatal") ("Urban") ("Dry") ("Daylight") ("25-34") ("Boston") 50
  , mkRow 2020 2 1 ("Other") ("Urban") ("Dry") ("Daylight") ("25-34") ("Boston") 10 ]

/-- Counterexample input for claim C2: a single (hour, day) combination. -/
def oneCellRows : List Row :=
  [ mkRow 2020 5 0 ("Fatal") ("Urban") ("Dry") ("Daylight") ("25-34") ("Boston") 3 ]

/-- Counterexample input for claim C3: a frame without the city column. -/
def frameNoCity : DataFrame :=
  DataFrame.mk [("SEVERITY_GROUP"), ("crash_count")]
    [ mkRow 2020 1 1 ("Fatal") ("Urban") ("Dry") ("Daylight") ("25-34") ("Boston") 5 ]

/-- Witness input for claim C3: the full column list but no rows. -/
def frameEmptyRows : DataFrame :=
  DataFrame.mk
    [("CITY_TOWN_NAME"), ("SEVERITY_GROUP"), ("crash_count"), ("URBAN_TYPE")] []

/-- Second witness input for claim C3: a frame missing the urban column. -/
def frameNoUrban : DataFrame :=
  DataFrame.mk [("CITY_TOWN_NAME"), ("SEVERITY_GROUP"), ("crash_count")]
    [ mkRow 2020 1 1 ("Other") ("Urban") ("Dry") ("Daylight") ("25-34") ("Boston") 7 ]

/-- The scenario of claim C4: counts 10 Fatal, 20 Serious, 70 Other. -/
def scenarioSummary : List Row :=
  [ mkRow 2020 1 1 ("Fatal") ("Urban") ("Dry") ("Daylight") ("25-34") ("Boston") 10
  , mkRow 2020 1 1 ("Serious") ("Urban") ("Dry") ("Daylight") ("25-34") ("Boston") 20
  , mkRow 2020 1 1 ("Other") ("Urban") ("Dry") ("Daylight") ("25-34") ("Boston") 70 ]

/-- Counterexample input for claim C7: Fatal occurs but with crash_count 0,
making the severity total 0. -/
def zeroFatalRows : List Row :=
  [ mkRow 2020 5 1 ("Fatal") ("Urban") ("Dry") ("Daylight") ("25-34") ("Boston") 0 ]

/-- Witness input for claim C7: Fatal crashes at two hours, counts 3 and 1. -/
def twoHourRows : List Row :=
  [ mkRow 2020 1 1 ("Fatal") ("Urban") ("Dry") ("Daylight") ("25-34") ("Boston") 3
  , mkRow 2020 2 1 ("Fatal") ("Urban") ("Dry") ("Daylight") ("25-34") ("Boston") 1 ]

/-- Witness input for claim C6: two rows spanning the years 2003-2024. -/
def spanRows : List Row :=
  [ mkRow 2003 1 1 ("Fatal") ("Urban") ("Dry") ("Daylight") ("25-34") ("Boston") 4
  , mkRow 2024 2 3 ("Other") ("Rural") ("Wet") ("Dark") ("75-84") ("Salem") 9 ]

/-- The all-open filter state: full year range of spanRows, All severity,
All in every selectbox. -/
def openFilters : FilterSet :=
  FilterSet.mk 2003 2024 [("All")] ("All") ("All") ("All") ("All")

/-- A restricted filter state sharing the year range of openFilters. -/
def tightFilters : FilterSet :=
  FilterSet.mk 2003 2024 [("Fatal")] ("Urban") ("Wet") ("Dark") ("25-34")

/-- A filter state agreeing with tightFilters except for severity and age. -/
def tightFiltersOtherAge : FilterSet :=
  FilterSet.mk 2003 2024 [("All"), ("Other")] ("Urban") ("Wet") ("Dark") ("75-84")

theorem length_insertBy {α : Type} (le : α → α → Bool) (x : α) (l : List α) :
    (insertBy le x l).length = l.length + 1 := by
  induction l with
  | nil => rfl
  | cons y ys ih =>
    simp only [insertBy]
    split
    · simp
    · simp [ih]

theorem length_sortBy {α : Type} (le : α → α → Bool) (l : List α) :
    (sortBy le l).length = l.length := by
  induction l with
  | nil => rfl
  | cons x xs ih => simp [sortBy, length_insertBy, ih]

theorem rateSummary_nil (cat : Row → String) (ms tn : Nat) :
    rateSummary [] cat ms tn = [] := by
  simp [rateSummary, distinctSorted, sortBy, List.take_nil]

/-- C1: at the spec scenario (Wet 50 crashes, Dry 500 crashes of which 50
severe, min_sample 100) the code keeps only Dry, as the claim says, but its
rate_pct is 100/11 (about 9.09), not the 10 demanded by
rate = severe/total x 100: line 201 sums the severity columns together
with the fatal_serious_crashes column just added, so the denominator is
500 + 50 = 550. -/
theorem rate_by_category_scenario_code_result :
    (rateSummary scenarioWetDry Row.roadSurf 100 20).map RateRow.category = [("Dry")]
    ∧ (rateSummary scenarioWetDry Row.roadSurf 100 20).map RateRow.fatalSeriousCrashes = [50]
    ∧ (rateSummary scenarioWetDry Row.roadSurf 100 20).map RateRow.totalCrashes = [550]
    ∧ (rateSummary scenarioWetDry Row.roadSurf 100 20).map RateRow.rate = [100 / 11]
    ∧ (100 : ℚ) / 11 ≠ 10 := by
  have hfs : fatalSeriousOf scenarioWetDry Row.roadSurf ("Dry") = 50 := by decide
  have htot : totalOf scenarioWetDry Row.roadSurf ("Dry") = 550 := by decide
  have hr : rateOf scenarioWetDry Row.roadSurf ("Dry") = 100 / 11 := by
    rw [rateOf, hfs, htot]; norm_num
  have hshape : (rateSummary scenarioWetDry Row.roadSurf 100 20).map RateRow.rate
      = [rateOf scenarioWetDry Row.roadSurf ("Dry")] := rfl
  refine ⟨by decide, by decide, by decide, ?_, by norm_num⟩
  rw [hshape, hr]

/-- C5: a returned row can have a true crash total below min_sample.  With
one city holding 50 Fatal and 10 Other crashes (total 60 < 100), the code
still returns it, because the total_crashes column of line 201 counts the
fatal and serious crashes twice (60 + 50 = 110 >= 100). -/
theorem rate_by_category_min_sample_violation :
    (rateSummary smallCityRows Row.cityTown 100 20).map RateRow.category = [("Boston")]
    ∧ (rateSummary smallCityRows Row.cityTown 100 20).map RateRow.totalCrashes = [110]
    ∧ sumCounts (smallCityRows.filter (fun r => r.cityTown == ("Boston"))) = 60
    ∧ (60 : Nat) < 100 :=
  ⟨by decide, by decide, by decide, by norm_num⟩

/-- C2 counterexample: for an input with a single (hour, day) combination
the pivot is a 1 x 1 matrix, not 24 x 7: lines 305-306 only index the hour
and day values that occur in the filtered data. -/
theorem heatmap_pivot_not_24_by_7 :
    (heatmap_pivot oneCellRows).hours.length = 1
    ∧ (heatmap_pivot oneCellRows).colNames.length = 1
    ∧ (heatmap_pivot oneCellRows).hours.length ≠ 24
    ∧ (heatmap_pivot oneCellRows).colNames.length ≠ 7 :=
  ⟨by decide, by decide, by decide, by decide⟩

/-- C2 amended: the pivot has one row per distinct hour value of the input
and one column per distinct day value of the input; the matrix is the grid
of (hour, day) sums, and a combination absent from the input sums to 0. -/
theorem heatmap_pivot_shape (rows : List Row) :
    (heatmap_pivot rows).hours.length = (rows.map Row.hour).dedup.length
    ∧ (heatmap_pivot rows).colNames.length = (rows.map Row.dayOfWeek).dedup.length
    ∧ (heatmap_pivot rows).matrix
        = (heatmap_pivot rows).hours.map
            (fun h => (heatmap_pivot rows).dayCols.map (fun d => hdSum rows h d))
    ∧ ∀ h d, (∀ r ∈ rows, ¬(r.hour = h ∧ r.dayOfWeek = d)) → hdSum rows h d = 0 := by
  refine ⟨?_, ?_, rfl, ?_⟩
  · show (sortedDedupInt (rows.map Row.hour)).length = _
    rw [sortedDedupInt, length_sortBy]
  · show ((sortedDedupInt (rows.map Row.dayOfWeek)).map dayName).length = _
    rw [List.length_map, sortedDedupInt, length_sortBy]
  · intro h d hnone
    rw [hdSum]
    have hnil : rows.filter (fun r => r.hour == h && r.dayOfWeek == d) = [] := by
      rw [List.filter_eq_nil_iff]
      intro r hrm
      have := hnone r hrm
      simp only [Bool.and_eq_true, beq_iff_eq]
      tauto
    rw [hnil]
    rfl

/-- C2 witness: combination (hour 3, day 4) is absent from oneCellRows and
its cell is 0. -/
theorem heatmap_pivot_shape_witness : hdSum oneCellRows 3 4 = 0 :=
  (heatmap_pivot_shape oneCellRows).2.2.2 3 4 (by decide)

/-- C3 counterexample: when the requested category column is absent the
code raises a KeyError at the column selection of line 186 instead of
returning an empty result. -/
theorem rate_by_category_missing_column_error :
    rate_by_category frameNoCity ("CITY_TOWN_NAME") 100 20 = Except.error ("KeyError")
    ∧ rate_by_category frameNoCity ("CITY_TOWN_NAME") 100 20
        ≠ Except.ok ([] : List RateRow) := by
  have h : rate_by_category frameNoCity ("CITY_TOWN_NAME") 100 20
      = Except.error ("KeyError") := rfl
  exact ⟨h, by rw [h]; simp⟩

/-- C3 amended: an empty dataset yields an empty result without raising,
but an absent category column makes the column selection raise (KeyError)
rather than produce an empty result. -/
theorem rate_by_category_empty_and_missing (f : DataFrame) (catCol : String)
    (minSample topN : Nat) :
    (f.rows = [] → catCol ∈ f.cols → ("SEVERITY_GROUP") ∈ f.cols →
      ("crash_count") ∈ f.cols →
      rate_by_category f catCol minSample topN = Except.ok [])
    ∧ (catCol ∉ f.cols →
      rate_by_category f catCol minSample topN = Except.error ("KeyError")) := by
  constructor
  · intro hrows h1 h2 h3
    simp only [rate_by_category]
    rw [if_pos (show ([catCol, ("SEVERITY_GROUP"), ("crash_count")].all
        (fun c => f.cols.contains c)) = true by simp [h1, h2, h3])]
    rw [hrows, rateSummary_nil]
  · intro h
    simp only [rate_by_category]
    rw [if_neg (show ¬ (([catCol, ("SEVERITY_GROUP"), ("crash_count")].all
        (fun c => f.cols.contains c)) = true) by simp [h])]

/-- C3 witness: an empty table with all columns present gives ok [], and a
frame without the urban column errors on that column. -/
theorem rate_by_category_empty_and_missing_witness :
    rate_by_category frameEmptyRows ("CITY_TOWN_NAME") 100 20
        = Except.ok ([] : List RateRow)
    ∧ rate_by_category frameNoUrban ("URBAN_TYPE") 50 5 = Except.error ("KeyError") :=
  ⟨(rate_by_category_empty_and_missing frameEmptyRows ("CITY_TOWN_NAME") 100 20).1
      rfl (by decide) (by decide) (by decide),
   (rate_by_category_empty_and_missing frameNoUrban ("URBAN_TYPE") 50 5).2 (by decide)⟩

/-- C4: summary_counts returns the sum of crash counts, the Fatal and
Serious sums, and rate_pct = (fatal+serious)/total x 100 with 0 at total
0 (a total function into ℚ: it cannot raise and has no NaN); the spec
scenario evaluates to (100, 10, 20, 30). -/
theorem summary_counts_spec (rows : List Row) :
    (summary_counts rows).1 = sumCounts rows
    ∧ (summary_counts rows).2.1
        = sumCounts (rows.filter (fun r => r.severity == ("Fatal")))
    ∧ (summary_counts rows).2.2.1
        = sumCounts (rows.filter (fun r => r.severity == ("Serious")))
    ∧ (summary_counts rows).2.2.2
        = (if sumCounts rows = 0 then (0 : ℚ) else
            ((sumCounts (rows.filter (fun r => r.severity == ("Fatal"))) : ℚ)
              + (sumCounts (rows.filter (fun r => r.severity == ("Serious"))) : ℚ))
              / (sumCounts rows : ℚ) * 100)
    ∧ (summary_counts scenarioSummary).1 = 100
    ∧ (summary_counts scenarioSummary).2.1 = 10
    ∧ (summary_counts scenarioSummary).2.2.1 = 20
    ∧ (summary_counts scenarioSummary).2.2.2 = 30 := by
  have hpct : ∀ l : List Row, (summary_counts l).2.2.2
      = (if sumCounts l = 0 then (0 : ℚ) else
          ((sumCounts (l.filter (fun r => r.severity == ("Fatal"))) : ℚ)
            + (sumCounts (l.filter (fun r => r.severity == ("Serious"))) : ℚ))
            / (sumCounts l : ℚ) * 100) := by
    intro l
    show (if 0 < sumCounts l then _ else (0 : ℚ)) = _
    rcases Nat.eq_zero_or_pos (sumCounts l) with h | h
    · rw [if_neg (by omega), if_pos h]
    · rw [if_pos h, if_neg (by omega)]
  refine ⟨rfl, rfl, rfl, hpct rows, by decide, by decide, by decide, ?_⟩
  rw [hpct scenarioSummary]
  rw [show sumCounts scenarioSummary = 100 from by decide]
  rw [show sumCounts (scenarioSummary.filter (fun r => r.severity == ("Fatal"))) = 10
    from by decide]
  rw [show sumCounts (scenarioSummary.filter (fun r => r.severity == ("Serious"))) = 20
    from by decide]
  norm_num

/-- C6: with every widget at its no-restriction value (a year range
containing every row, All in the severity multiselect, All in each
selectbox) filtered_data returns the input list itself, row for row and in
order; the embedding is a pure function, matching that the pandas masks
never mutate main_data. -/
theorem apply_filters_identity (main : List Row) (fs : FilterSet)
    (hy : ∀ r ∈ main, fs.yearLo ≤ r.year ∧ r.year ≤ fs.yearHi)
    (hs : ("All") ∈ fs.severityFilter)
    (hu : fs.urban = ("All")) (hr : fs.road = ("All"))
    (hl : fs.light = ("All")) (ha : fs.age = ("All")) :
    filtered_data main fs = main := by
  have hc : fs.severityFilter.contains ("All") = true := List.elem_eq_true_of_mem hs
  simp only [filtered_data, hc, hu, hr, hl, ha, Bool.not_true, Bool.false_and,
    bne_self_eq_false, Bool.false_eq_true, if_false]
  rw [List.filter_eq_self]
  intro r hrm
  simp [decide_eq_true_eq, (hy r hrm).1, (hy r hrm).2]

/-- C6 witness: the open filter state returns spanRows unchanged. -/
theorem apply_filters_identity_witness : filtered_data spanRows openFilters = spanRows :=
  apply_filters_identity spanRows openFilters (by decide) (by decide) rfl rfl rfl rfl

theorem percSum_cons {α : Type} (x : α × String × Nat × ℚ)
    (xs : List (α × String × Nat × ℚ)) (s : String) :
    percSum (x :: xs) s = (if x.2.1 == s then x.2.2.2 else 0) + percSum xs s := by
  rcases hb : (x.2.1 == s) with _ | _ <;> simp [percSum, List.filter_cons, hb]

theorem sevGroupTotal_cons {α : Type} (x : α × String × Nat)
    (xs : List (α × String × Nat)) (s : String) :
    sevGroupTotal (x :: xs) s = (if x.2.1 == s then x.2.2 else 0) + sevGroupTotal xs s := by
  rcases hb : (x.2.1 == s) with _ | _ <;> simp [sevGroupTotal, List.filter_cons, hb]

theorem percSum_normalize_aux {α : Type} (base g : List (α × String × Nat)) (s : String) :
    percSum (g.map (fun x => (x.1, x.2.1, x.2.2,
        ((x.2.2 : ℚ) / (sevGroupTotal base x.2.1 : ℚ)) * 100))) s
      = (sevGroupTotal g s : ℚ) / (sevGroupTotal base s : ℚ) * 100 := by
  induction g with
  | nil => simp [percSum, sevGroupTotal]
  | cons x xs ih =>
    rw [List.map_cons, percSum_cons, sevGroupTotal_cons]
    dsimp only
    rcases hb : (x.2.1 == s) with _ | _
    · rw [if_neg (by simp [hb]), if_neg (by simp [hb]), ih]
      simp
    · have hx : x.2.1 = s := by simpa using hb
      rw [if_pos (by simp [hb]), if_pos (by simp [hb]), ih, hx]
      push_cast
      ring

/-- C7 amended: for any grouping dimension and any severity whose total
grouped crash count is positive, the percentage column of
normalizeWithinGroup for that severity sums to exactly 100, however many
dimension buckets exist.  When that total is 0 the sum is not 100 (pandas
produces NaN or inf there; in ℚ the sum collapses to 0). -/
theorem normalize_sums_to_100 {α : Type} [DecidableEq α] (dim : Row → α)
    (rows : List Row) (s : String)
    (hpos : 0 < sevGroupTotal (groupedTable dim rows) s) :
    percSum (normalizeWithinGroup dim rows) s = 100 := by
  simp only [normalizeWithinGroup]
  rw [percSum_normalize_aux]
  have hT : ((sevGroupTotal (groupedTable dim rows) s : Nat) : ℚ) ≠ 0 := by
    exact_mod_cast Nat.pos_iff_ne_zero.mp hpos
  rw [div_self hT, one_mul]

/-- C7 counterexample: the severity Fatal occurs in zeroFatalRows, but the
sole Fatal row has crash_count 0, so the Fatal total is 0 and its
percentage column does not sum to 100 (the code divides 0 by 0: NaN in
pandas, 0 in ℚ). -/
theorem normalize_zero_total_counterexample :
    (zeroFatalRows.any (fun r => r.severity == ("Fatal"))) = true
    ∧ percSum (normalizeWithinGroup Row.hour zeroFatalRows) ("Fatal") ≠ 100 := by
  refine ⟨by decide, ?_⟩
  have hg : groupedTable Row.hour zeroFatalRows = [((5 : Int), ("Fatal"), (0 : Nat))] := by
    decide
  simp only [normalizeWithinGroup, hg]
  rw [percSum_normalize_aux]
  rw [show sevGroupTotal [((5 : Int), ("Fatal"), (0 : Nat))] ("Fatal") = 0 from by decide]
  norm_num

/-- C7 witness: two Fatal buckets with counts 3 and 1 have positive total
and percentages summing to 100. -/
theorem normalize_sums_to_100_witness :
    0 < sevGroupTotal (groupedTable Row.hour twoHourRows) ("Fatal")
    ∧ percSum (normalizeWithinGroup Row.hour twoHourRows) ("Fatal") = 100 :=
  ⟨by decide, normalize_sums_to_100 Row.hour twoHourRows ("Fatal") (by decide)⟩

/-- C8: the two risk-factor tables are computed from baseline_data, which
reads only the year range of the FilterSet, so two runs agreeing on the
year range give identical road-surface and light-condition rate tables
whatever their severity, urban, road, light and age filters are. -/
theorem risk_tables_ignore_other_filters (main : List Row) (fs1 fs2 : FilterSet)
    (hlo : fs1.yearLo = fs2.yearLo) (hhi : fs1.yearHi = fs2.yearHi) :
    road_final main fs1 = road_final main fs2
    ∧ light_final main fs1 = light_final main fs2 := by
  constructor <;> simp only [road_final, light_final, baseline_data, hlo, hhi]

/-- C8 witness: the all-open and the fully restricted filter states share
the year range 2003-2024 and give the same risk tables. -/
theorem risk_tables_ignore_other_filters_witness :
    road_final spanRows openFilters = road_final spanRows tightFilters
    ∧ light_final spanRows openFilters = light_final spanRows tightFilters :=
  risk_tables_ignore_other_filters spanRows openFilters tightFilters rfl rfl

/-- C9: a failed load halts the run with the error message of line 21 and
produces no tables at all, while a successful load renders the full
pipeline output; runDashboard models the try/except/st.stop of lines
18-22, after which no partial output can exist. -/
theorem run_load_failure_short_circuits :
    (∀ (e : String) (fs : FilterSet),
      runDashboard (Except.error e) fs
        = RunOutcome.halted (("Error loading data: ") ++ e))
    ∧ (∀ (inp : Inputs) (fs : FilterSet),
      runDashboard (Except.ok inp) fs = RunOutcome.rendered (dashboardTables inp fs)) :=
  ⟨fun _ _ => rfl, fun _ _ => rfl⟩

/-- C10: summaryMetrics is summary_counts over total_all_data, which reads
only the year range and the urban, road and light filters, so two runs
agreeing on those give identical metric tuples whatever their severity
multiselect and age filter are. -/
theorem summary_ignores_severity_and_age (main : List Row) (fs1 fs2 : FilterSet)
    (hlo : fs1.yearLo = fs2.yearLo) (hhi : fs1.yearHi = fs2.yearHi)
    (hu : fs1.urban = fs2.urban) (hr : fs1.road = fs2.road)
    (hl : fs1.light = fs2.light) :
    summaryMetrics main fs1 = summaryMetrics main fs2 := by
  simp only [summaryMetrics, total_all_data, hlo, hhi, hu, hr, hl]

/-- C10 witness: tightFilters and tightFiltersOtherAge differ exactly in
the severity multiselect and the age filter, and the metrics agree. -/
theorem summary_ignores_severity_and_age_witness :
    summaryMetrics spanRows tightFilters = summaryMetrics spanRows tightFiltersOtherAge :=
  summary_ignores_severity_and_age spanRows tightFilters tightFiltersOtherAge
    rfl rfl rfl rfl rfl
